import Mathlib

/-!
Verification of the file-selection / load / edit / save lifecycle of the
`CodeEditor` example application (`src/examples/code_editor.py`).

The embedding models the app state (`CodeEditor.__init__` attributes), the
filesystem as a map from path strings to either decoded text or a read
error, the language guesser and the builtin-language list as parameters
(they come from external libraries: `rich.Syntax.guess_lexer` and
`textual.widgets.text_area.BUILTIN_LANGUAGES`), and the three operations
`on_directory_tree_file_selected`, `action_save`, `action_toggle_files`
as pure state transformers that additionally return the list of
notifications emitted via `self.notify`.
-/

namespace CodeEditor

/-- A filesystem: each path either reads as decoded text (`Except.ok`) or
fails with some error (`Except.error`, the payload standing for the kind of
exception raised by `Path.read_text`). -/
abbrev FS := String → Except String String

/-- `pathlib.Path(p).name`: the final path component. -/
def pathName (path : String) : String :=
  ((path.splitOn "/").getLast?).getD path

/-- One call to `self.notify(message, title, severity)`.  The default
severity in textual is "information". -/
structure Notification where
  message : String
  title : String
  severity : String
  deriving Repr, DecidableEq

/-- The state of the `TextArea` widget as used by the app: its `display`
flag, its `language` attribute (`None` = plain text) and its text. -/
structure TextAreaState where
  display : Bool
  language : Option String
  text : String
  deriving Repr, DecidableEq

/-- The mutable attributes of the `CodeEditor` app. -/
structure EditorState where
  file_path : String
  sub_title : String
  text_area : TextAreaState
  selected_file : Option String
  file_content : Option String
  show_tree : Bool
  show_tree_class : Bool
  deriving Repr, DecidableEq

/-- `CodeEditor.__init__(path)`: the freshly constructed app state.  The
`TextArea` starts empty with no language; `self.text_area.display = False`
is set explicitly in `__init__`. -/
def initState (path : String) : EditorState :=
  { file_path := path
    sub_title := path
    text_area := { display := false, language := none, text := "" }
    selected_file := none
    file_content := none
    show_tree := true
    show_tree_class := true }

/-- `CodeEditor.load_text_area(text, file_path)`: guess the lexer from the
path and the text, load `self.file_content` into the text area, and set the
language to the guessed lexer iff it is one of the builtin languages.
The source passes `self.file_content` (an `Optional[str]`) to
`load_text`; at the only call site it equals the `text` argument, so the
`none` fallback to `text` can never fire there. -/
def load_text_area (guessLexer : String → String → String)
    (builtin : List String) (st : EditorState)
    (text : String) (file_path : String) : EditorState :=
  let lexer := guessLexer file_path text
  let ta := { st.text_area with text := st.file_content.getD text }
  if lexer ∈ builtin then
    { st with text_area := { ta with language := some lexer } }
  else
    { st with text_area := { ta with language := none } }

/-- `CodeEditor.on_directory_tree_file_selected(event)` for
`event.path = path`: set `selected_file` and the subtitle, try to read the
file; on success record the content, show the text area and call
`load_text_area`; on any exception set the subtitle to "ERROR", hide the
text area, clear its language, notify a "File Error" and clear
`selected_file` (note: `file_content` is NOT touched on failure).  Returns
the new state and the emitted notifications. -/
def on_directory_tree_file_selected (guessLexer : String → String → String)
    (builtin : List String) (fs : FS) (st : EditorState)
    (path : String) : EditorState × List Notification :=
  let st1 := { st with selected_file := some path, sub_title := path }
  match fs path with
  | Except.error _ =>
      ({ st1 with
          sub_title := "ERROR"
          text_area := { st1.text_area with display := false, language := none }
          selected_file := none },
       [⟨pathName path ++ " could not be loaded", "File Error", "error"⟩])
  | Except.ok content =>
      let st2 := { st1 with
          file_content := some content
          text_area := { st1.text_area with display := true } }
      (load_text_area guessLexer builtin st2 content path, [])

/-- `CodeEditor.action_save()`: if a file is selected and the live buffer
text differs from `self.file_content` (Python `str != Optional[str]`, hence
the comparison against `some`), overwrite the selected file with the buffer
text, update `file_content` and notify "File Saved"; otherwise do nothing.
Returns the updated filesystem, state and notifications. -/
def action_save (fs : FS) (st : EditorState) :
    FS × EditorState × List Notification :=
  match st.selected_file with
  | none => (fs, st, [])
  | some f =>
      if some st.text_area.text ≠ st.file_content then
        (fun p => if p = f then Except.ok st.text_area.text else fs p,
         { st with file_content := some st.text_area.text },
         [⟨f, "File Saved", "information"⟩])
      else
        (fs, st, [])

/-- `CodeEditor.watch_show_tree(show_tree)`: `set_class(show_tree,
"-show-tree")`, modelled as a boolean for whether the class is set. -/
def watch_show_tree (st : EditorState) (show_tree : Bool) : EditorState :=
  { st with show_tree_class := show_tree }

/-- `CodeEditor.action_toggle_files()`: flip `show_tree`; the reactive
system then runs `watch_show_tree` with the new value. -/
def action_toggle_files (st : EditorState) : EditorState :=
  watch_show_tree { st with show_tree := !st.show_tree } (!st.show_tree)

/-- The external widget mutating its own buffer (the user typing): only the
text area's text changes. -/
def set_buffer_text (st : EditorState) (text : String) : EditorState :=
  { st with text_area := { st.text_area with text := text } }

/-- The three key-triggered operations of the app (besides quit). -/
inductive Op where
  | select (path : String)
  | save
  | toggleFiles
  deriving Repr, DecidableEq

/-- One event-dispatch step: run the operation, returning the (possibly
updated) filesystem, the new state and the emitted notifications.
`on_directory_tree_file_selected` only reads the filesystem, so the
filesystem is returned unchanged there. -/
def step (guessLexer : String → String → String) (builtin : List String)
    (fs : FS) (st : EditorState) : Op → FS × EditorState × List Notification
  | Op.select path =>
      let r := on_directory_tree_file_selected guessLexer builtin fs st path
      (fs, r.1, r.2)
  | Op.save => action_save fs st
  | Op.toggleFiles => (fs, action_toggle_files st, [])

/-- C1: for every file whose content decodes successfully as text,
`on_directory_tree_file_selected` ends with `selected_file` equal to the
path, `file_content` equal to the file's text, the text area visible, and
the text area's text equal to the file's text. -/
theorem C1_select_success (guessLexer : String → String → String)
    (builtin : List String) (fs : FS) (st : EditorState)
    (path text : String) (h : fs path = Except.ok text) :
    let st' := (on_directory_tree_file_selected guessLexer builtin fs st path).1
    st'.selected_file = some path ∧ st'.file_content = some text ∧
    st'.text_area.display = true ∧ st'.text_area.text = text := by
  simp only [on_directory_tree_file_selected, h, load_text_area]
  split <;> simp

theorem C1_select_success_witness :
    ((fun _ => Except.ok "hello" : FS) "a.py" = Except.ok "hello") ∧
    (let st' := (on_directory_tree_file_selected (fun _ _ => "python") ["python"]
        (fun _ => Except.ok "hello") (initState ".") "a.py").1
     st'.selected_file = some "a.py" ∧ st'.file_content = some "hello" ∧
     st'.text_area.display = true ∧ st'.text_area.text = "hello") :=
  ⟨rfl, C1_select_success (fun _ _ => "python") ["python"]
    (fun _ => Except.ok "hello") (initState ".") "a.py" "hello" rfl⟩

/-- C2: for every file whose read fails, `on_directory_tree_file_selected`
ends with `selected_file` absent, the text area hidden, its language `none`,
the subtitle "ERROR", and exactly one error notification whose message
names the file, with severity "error" and title "File Error". -/
theorem C2_select_failure (guessLexer : String → String → String)
    (builtin : List String) (fs : FS) (st : EditorState)
    (path e : String) (h : fs path = Except.error e) :
    let r := on_directory_tree_file_selected guessLexer builtin fs st path
    r.1.selected_file = none ∧ r.1.text_area.display = false ∧
    r.1.text_area.language = none ∧ r.1.sub_title = "ERROR" ∧
    r.2.length = 1 ∧
    r.2 = [⟨pathName path ++ " could not be loaded", "File Error", "error"⟩] := by
  simp [on_directory_tree_file_selected, h]

theorem C2_select_failure_witness :
    ((fun _ => Except.error "denied" : FS) "b.bin" = Except.error "denied") ∧
    (let r := on_directory_tree_file_selected (fun _ _ => "python") ["python"]
        (fun _ => Except.error "denied") (initState ".") "b.bin"
     r.1.selected_file = none ∧ r.1.text_area.display = false ∧
     r.1.text_area.language = none ∧ r.1.sub_title = "ERROR" ∧
     r.2.length = 1 ∧
     r.2 = [⟨pathName "b.bin" ++ " could not be loaded", "File Error", "error"⟩]) :=
  ⟨rfl, C2_select_failure (fun _ _ => "python") ["python"]
    (fun _ => Except.error "denied") (initState ".") "b.bin" "denied" rfl⟩

/-- C8: whenever `selected_file` is absent, `action_save` is a complete
no-op: the filesystem, the state and the empty notification list are
returned unchanged. -/
theorem C8_save_no_selection (fs : FS) (st : EditorState)
    (h : st.selected_file = none) :
    action_save fs st = (fs, st, []) := by
  simp [action_save, h]

theorem C8_save_no_selection_witness :
    (initState ".").selected_file = none ∧
    action_save (fun _ => Except.error "io") (initState ".") =
      ((fun _ => Except.error "io"), initState ".", []) :=
  ⟨rfl, C8_save_no_selection (fun _ => Except.error "io") (initState ".") rfl⟩

/-- C10: on every failed load the text area's text is unchanged; the error
path changes only its `display` flag and its `language` attribute. -/
theorem C10_error_keeps_text (guessLexer : String → String → String)
    (builtin : List String) (fs : FS) (st : EditorState)
    (path e : String) (h : fs path = Except.error e) :
    let st' := (on_directory_tree_file_selected guessLexer builtin fs st path).1
    st'.text_area.text = st.text_area.text ∧
    st'.text_area = { st.text_area with display := false, language := none } := by
  simp [on_directory_tree_file_selected, h]

theorem C10_error_keeps_text_witness :
    ((fun _ => Except.error "io" : FS) "b.bin" = Except.error "io") ∧
    (let st0 : EditorState :=
      { initState "." with text_area := { display := true, language := none, text := "old" } }
     let st' := (on_directory_tree_file_selected (fun _ _ => "python") ["python"]
        (fun _ => Except.error "io") st0 "b.bin").1
     st'.text_area.text = st0.text_area.text ∧
     st'.text_area = { st0.text_area with display := false, language := none }) :=
  ⟨rfl, C10_error_keeps_text (fun _ _ => "python") ["python"]
    (fun _ => Except.error "io")
    { initState "." with text_area := { display := true, language := none, text := "old" } }
    "b.bin" "io" rfl⟩

/-- C5: whenever a file is selected and the live buffer text differs from
`file_content`, `action_save` writes exactly the buffer text to the
selected file, leaves every other file unchanged, updates `file_content`
to the buffer text, leaves `selected_file` unchanged, and emits exactly
one "File Saved" notification whose message is the file's path. -/
theorem C5_save_modified (fs : FS) (st : EditorState) (f : String)
    (hsel : st.selected_file = some f)
    (hmod : some st.text_area.text ≠ st.file_content) :
    let r := action_save fs st
    r.1 f = Except.ok st.text_area.text ∧
    (∀ p, p ≠ f → r.1 p = fs p) ∧
    r.2.1.file_content = some st.text_area.text ∧
    r.2.1.selected_file = some f ∧
    r.2.2 = [⟨f, "File Saved", "information"⟩] := by
  have hsave : action_save fs st =
      ((fun p => if p = f then Except.ok st.text_area.text else fs p),
       { st with file_content := some st.text_area.text },
       [⟨f, "File Saved", "information"⟩]) := by
    simp [action_save, hsel, hmod]
  exact ⟨by simp [hsave], fun p hp => by simp [hsave, hp], by simp [hsave],
    by simp [hsave, hsel], by simp [hsave]⟩

theorem C5_save_modified_witness :
    (let st0 : EditorState :=
      { initState "." with
          selected_file := some "a.py"
          file_content := some "old"
          text_area := { display := true, language := none, text := "new" } }
     st0.selected_file = some "a.py" ∧ some st0.text_area.text ≠ st0.file_content) ∧
    (let st0 : EditorState :=
      { initState "." with
          selected_file := some "a.py"
          file_content := some "old"
          text_area := { display := true, language := none, text := "new" } }
     let r := action_save (fun _ => Except.ok "old") st0
     r.1 "a.py" = Except.ok st0.text_area.text ∧
     (∀ p, p ≠ "a.py" → r.1 p = (fun _ => Except.ok "old" : FS) p) ∧
     r.2.1.file_content = some st0.text_area.text ∧
     r.2.1.selected_file = some "a.py" ∧
     r.2.2 = [⟨"a.py", "File Saved", "information"⟩]) :=
  ⟨⟨rfl, by decide⟩,
   C5_save_modified (fun _ => Except.ok "old")
    { initState "." with
        selected_file := some "a.py"
        file_content := some "old"
        text_area := { display := true, language := none, text := "new" } }
    "a.py" rfl (by decide)⟩

/-- C6: `on_directory_tree_file_selected` never surfaces a read error to
its caller: it is a total function, its result does not depend on which
read error occurred (all failure kinds are handled uniformly), and every
failure is converted into the error-notification path. -/
theorem C6_read_errors_contained (guessLexer : String → String → String)
    (builtin : List String) (fs1 fs2 : FS) (st : EditorState)
    (path e1 e2 : String)
    (h1 : fs1 path = Except.error e1) (h2 : fs2 path = Except.error e2) :
    on_directory_tree_file_selected guessLexer builtin fs1 st path =
      on_directory_tree_file_selected guessLexer builtin fs2 st path ∧
    (on_directory_tree_file_selected guessLexer builtin fs1 st path).2 =
      [⟨pathName path ++ " could not be loaded", "File Error", "error"⟩] := by
  simp [on_directory_tree_file_selected, h1, h2]

theorem C6_read_errors_contained_witness :
    ((fun _ => Except.error "permission" : FS) "b.bin" = Except.error "permission") ∧
    ((fun _ => Except.error "decode" : FS) "b.bin" = Except.error "decode") ∧
    (on_directory_tree_file_selected (fun _ _ => "python") ["python"]
        (fun _ => Except.error "permission") (initState ".") "b.bin" =
      on_directory_tree_file_selected (fun _ _ => "python") ["python"]
        (fun _ => Except.error "decode") (initState ".") "b.bin" ∧
     (on_directory_tree_file_selected (fun _ _ => "python") ["python"]
        (fun _ => Except.error "permission") (initState ".") "b.bin").2 =
      [⟨pathName "b.bin" ++ " could not be loaded", "File Error", "error"⟩]) :=
  ⟨rfl, rfl,
   C6_read_errors_contained (fun _ _ => "python") ["python"]
    (fun _ => Except.error "permission") (fun _ => Except.error "decode")
    (initState ".") "b.bin" "permission" "decode" rfl rfl⟩

/-- C7: on every successful load, the text area's language is set to the
guessed lexer when that lexer is among the builtin languages and to `none`
otherwise; in all cases it is either `none` or a member of the builtin
set. -/
theorem C7_language_policy (guessLexer : String → String → String)
    (builtin : List String) (fs : FS) (st : EditorState)
    (path text : String) (h : fs path = Except.ok text) :
    let st' := (on_directory_tree_file_selected guessLexer builtin fs st path).1
    (guessLexer path text ∈ builtin →
      st'.text_area.language = some (guessLexer path text)) ∧
    (guessLexer path text ∉ builtin → st'.text_area.language = none) ∧
    (st'.text_area.language = none ∨
      ∃ l, l ∈ builtin ∧ st'.text_area.language = some l) := by
  simp only [on_directory_tree_file_selected, h, load_text_area]
  refine ⟨fun hin => by simp [hin], fun hout => by simp [hout], ?_⟩
  by_cases hin : guessLexer path text ∈ builtin
  · exact Or.inr ⟨guessLexer path text, hin, by simp [hin]⟩
  · exact Or.inl (by simp [hin])

theorem C7_language_policy_witness :
    ((fun _ => Except.ok "hello" : FS) "a.py" = Except.ok "hello") ∧
    ((fun (_ _ : String) => "python") "a.py" "hello" ∈ ["python", "css"]) ∧
    ((fun (_ _ : String) => "brainfuck") "a.py" "hello" ∉ ["python", "css"]) ∧
    (let st' := (on_directory_tree_file_selected (fun _ _ => "python")
        ["python", "css"] (fun _ => Except.ok "hello") (initState ".") "a.py").1
     st'.text_area.language = some ((fun (_ _ : String) => "python") "a.py" "hello")) ∧
    (let st' := (on_directory_tree_file_selected (fun _ _ => "brainfuck")
        ["python", "css"] (fun _ => Except.ok "hello") (initState ".") "a.py").1
     st'.text_area.language = none) :=
  ⟨rfl, by decide, by decide,
   (C7_language_policy (fun _ _ => "python") ["python", "css"]
      (fun _ => Except.ok "hello") (initState ".") "a.py" "hello" rfl).1 (by decide),
   (C7_language_policy (fun _ _ => "brainfuck") ["python", "css"]
      (fun _ => Except.ok "hello") (initState ".") "a.py" "hello" rfl).2.1 (by decide)⟩

/-- C3: when the live buffer text equals `file_content`, `action_save` is a
no-op (no write, no notification, no state change); after a successful
selection an immediate save is such a no-op (round-trip); and a second save
right after any save is a no-op, so two consecutive saves perform at most
one write. -/
theorem C3_save_unmodified_noop (guessLexer : String → String → String)
    (builtin : List String) (fs : FS) (st : EditorState)
    (path text : String) (hread : fs path = Except.ok text) :
    (st.file_content = some st.text_area.text → action_save fs st = (fs, st, [])) ∧
    (let st1 := (on_directory_tree_file_selected guessLexer builtin fs st path).1
     action_save fs st1 = (fs, st1, [])) ∧
    (let r := action_save fs st
     action_save r.1 r.2.1 = (r.1, r.2.1, [])) := by
  refine ⟨?_, ?_, ?_⟩
  · intro h
    cases hsel : st.selected_file with
    | none => simp [action_save, hsel]
    | some f => simp [action_save, hsel, h]
  · simp only [on_directory_tree_file_selected, hread, load_text_area]
    split <;> simp [action_save]
  · cases hsel : st.selected_file with
    | none => simp [action_save, hsel]
    | some f =>
        by_cases hmod : some st.text_area.text ≠ st.file_content
        · simp [action_save, hsel, hmod]
        · simp [action_save, hsel, hmod]

theorem C3_save_unmodified_noop_witness :
    ((fun _ => Except.ok "hello" : FS) "a.py" = Except.ok "hello") ∧
    (let st0 : EditorState :=
      { initState "." with selected_file := some "a.py", file_content := some "" }
     st0.file_content = some st0.text_area.text) ∧
    (let st0 : EditorState :=
      { initState "." with selected_file := some "a.py", file_content := some "" }
     action_save (fun _ => Except.ok "hello") st0 =
       ((fun _ => Except.ok "hello" : FS), st0, []) ∧
     (let st1 := (on_directory_tree_file_selected (fun _ _ => "python") ["python"]
        (fun _ => Except.ok "hello") st0 "a.py").1
      action_save (fun _ => Except.ok "hello") st1 =
        ((fun _ => Except.ok "hello" : FS), st1, [])) ∧
     (let r := action_save (fun _ => Except.ok "hello") st0
      action_save r.1 r.2.1 = (r.1, r.2.1, []))) :=
  ⟨rfl, rfl,
   (C3_save_unmodified_noop (fun _ _ => "python") ["python"]
      (fun _ => Except.ok "hello")
      { initState "." with selected_file := some "a.py", file_content := some "" }
      "a.py" "hello" rfl).1 rfl,
   (C3_save_unmodified_noop (fun _ _ => "python") ["python"]
      (fun _ => Except.ok "hello")
      { initState "." with selected_file := some "a.py", file_content := some "" }
      "a.py" "hello" rfl).2.1,
   (C3_save_unmodified_noop (fun _ _ => "python") ["python"]
      (fun _ => Except.ok "hello")
      { initState "." with selected_file := some "a.py", file_content := some "" }
      "a.py" "hello" rfl).2.2⟩

/-- C4 as stated is false: after a successful load of "a.txt" (content
"hello") followed by a failed load of "b.bin", `selected_file` is cleared
but `file_content` still holds "hello" — the error branch of
`on_directory_tree_file_selected` never touches `self.file_content`. -/
theorem C4_counterexample :
    let st1 := (on_directory_tree_file_selected (fun _ _ => "python") ["python"]
        (fun _ => Except.ok "hello") (initState ".") "a.txt").1
    let st2 := (on_directory_tree_file_selected (fun _ _ => "python") ["python"]
        (fun _ => Except.error "boom") st1 "b.bin").1
    st2.selected_file = none ∧ st2.file_content = some "hello" ∧
    ¬st2.file_content = none := by
  exact ⟨rfl, rfl, by decide⟩

/-- C4 amended: on every failed load `selected_file` is cleared to absent
while `file_content` is left unchanged (not cleared); on every successful
load `selected_file` and `file_content` are set together; on every save of
a modified buffer `file_content` is updated while `selected_file` is
unchanged. -/
theorem C4_lifecycle_amended (guessLexer : String → String → String)
    (builtin : List String) (fs : FS) (st : EditorState)
    (goodPath badPath text e f : String)
    (hbad : fs badPath = Except.error e)
    (hgood : fs goodPath = Except.ok text)
    (hsel : st.selected_file = some f)
    (hmod : some st.text_area.text ≠ st.file_content) :
    (let st' := (on_directory_tree_file_selected guessLexer builtin fs st badPath).1
     st'.selected_file = none ∧ st'.file_content = st.file_content) ∧
    (let st' := (on_directory_tree_file_selected guessLexer builtin fs st goodPath).1
     st'.selected_file = some goodPath ∧ st'.file_content = some text) ∧
    (let r := action_save fs st
     r.2.1.file_content = some st.text_area.text ∧
     r.2.1.selected_file = some f) := by
  refine ⟨?_, ?_, ?_⟩
  · simp [on_directory_tree_file_selected, hbad]
  · simp only [on_directory_tree_file_selected, hgood, load_text_area]
    split <;> simp
  · simp [action_save, hsel, hmod]

theorem C4_lifecycle_amended_witness :
    ((fun p => if p = "good.py" then Except.ok "hi" else Except.error "io" : FS)
        "bad.bin" = Except.error "io") ∧
    ((fun p => if p = "good.py" then Except.ok "hi" else Except.error "io" : FS)
        "good.py" = Except.ok "hi") ∧
    (let st0 : EditorState :=
      { initState "." with
          selected_file := some "good.py"
          file_content := some "old"
          text_area := { display := true, language := none, text := "new" } }
     st0.selected_file = some "good.py" ∧
     some st0.text_area.text ≠ st0.file_content) ∧
    (let fs0 : FS := fun p => if p = "good.py" then Except.ok "hi" else Except.error "io"
     let st0 : EditorState :=
      { initState "." with
          selected_file := some "good.py"
          file_content := some "old"
          text_area := { display := true, language := none, text := "new" } }
     (let st' := (on_directory_tree_file_selected (fun _ _ => "python") ["python"]
        fs0 st0 "bad.bin").1
      st'.selected_file = none ∧ st'.file_content = st0.file_content) ∧
     (let st' := (on_directory_tree_file_selected (fun _ _ => "python") ["python"]
        fs0 st0 "good.py").1
      st'.selected_file = some "good.py" ∧ st'.file_content = some "hi") ∧
     (let r := action_save fs0 st0
      r.2.1.file_content = some st0.text_area.text ∧
      r.2.1.selected_file = some "good.py")) :=
  ⟨rfl, rfl, ⟨rfl, by decide⟩,
   C4_lifecycle_amended (fun _ _ => "python") ["python"]
    (fun p => if p = "good.py" then Except.ok "hi" else Except.error "io")
    { initState "." with
        selected_file := some "good.py"
        file_content := some "old"
        text_area := { display := true, language := none, text := "new" } }
    "good.py" "bad.bin" "hi" "io" "good.py"
    rfl rfl rfl (by decide)⟩

/-- C9: across all operations, the filesystem changes at no path except
when the operation is `save` and that path is the currently selected file,
in which case the new content is exactly the buffer text; selection and
tree-toggling never write. -/
theorem C9_fs_frame (guessLexer : String → String → String)
    (builtin : List String) (fs : FS) (st : EditorState) (op : Op) :
    ∀ p, (step guessLexer builtin fs st op).1 p = fs p ∨
      (op = Op.save ∧ st.selected_file = some p ∧
        (step guessLexer builtin fs st op).1 p = Except.ok st.text_area.text) := by
  intro p
  cases op with
  | select path => exact Or.inl rfl
  | toggleFiles => exact Or.inl rfl
  | save =>
      cases hsel : st.selected_file with
      | none => exact Or.inl (by simp [step, action_save, hsel])
      | some f =>
          by_cases hmod : some st.text_area.text ≠ st.file_content
          · by_cases hp : p = f
            · exact Or.inr ⟨rfl, by rw [hp],
                by simp [step, action_save, hsel, hmod, hp]⟩
            · exact Or.inl (by simp [step, action_save, hsel, hmod, hp])
          · exact Or.inl (by simp [step, action_save, hsel, hmod])

end CodeEditor
